import Mathlib

/-!
Finance assistant: house purchase versus fund investment.

A shallow embedding of `src/utils/calculations.js` and `src/constants/index.js`.

JavaScript numbers are modelled by exact rationals (`ℚ`): every finite double is a
rational, and the arithmetic is carried out without rounding error.  `Math.round`
is `⌊x + 1/2⌋`, `Math.max` is `max`, `Math.pow` with a whole exponent is `^`, and
`parseFloat` applied to a number is the identity.  The loan term is a natural
number of years.
-/

namespace FinanceAssistant

/-! ## Constants (`src/constants/index.js`) -/

/-- The field `LOAN_CONSTANTS.LOAN_TERM_YEARS`. -/
def LOAN_TERM_YEARS : ℕ := 30

/-- The field `LOAN_CONSTANTS.LAND_VALUE_RATIO`, the literal `0.8`. -/
def LAND_VALUE_RATIO : ℚ := 8 / 10

/-- The field `LOAN_CONSTANTS.WEEKS_PER_MONTH`, the literal `4.33`. -/
def WEEKS_PER_MONTH : ℚ := 433 / 100

/-- The field `LOAN_CONSTANTS.WEEKS_PER_YEAR`. -/
def WEEKS_PER_YEAR : ℚ := 52

/-- The field `LOAN_CONSTANTS.MONTHS_PER_YEAR`. -/
def MONTHS_PER_YEAR : ℕ := 12

/-- One entry of `VIC_LAND_TAX_BRACKETS`. -/
structure Bracket where
  threshold : ℚ
  rate : ℚ
  fixedAmount : ℚ
  deriving DecidableEq, Repr

/-- The table `VIC_LAND_TAX_BRACKETS` of `src/constants/index.js`. -/
def VIC_LAND_TAX_BRACKETS : List Bracket :=
  [ { threshold := 0, rate := 0, fixedAmount := 0 },
    { threshold := 50000, rate := 0, fixedAmount := 500 },
    { threshold := 100000, rate := 0, fixedAmount := 975 },
    { threshold := 300000, rate := 3 / 1000, fixedAmount := 1350 },
    { threshold := 600000, rate := 6 / 1000, fixedAmount := 2250 },
    { threshold := 1000000, rate := 9 / 1000, fixedAmount := 4650 },
    { threshold := 1800000, rate := 165 / 10000, fixedAmount := 11850 },
    { threshold := 3000000, rate := 265 / 10000, fixedAmount := 31650 } ]

/-! ## Numeric primitives -/

/-- The JavaScript `Math.round`: the nearest integer, halves going up. -/
def mathRound (x : ℚ) : ℤ := ⌊x + 1 / 2⌋

/-! ## `src/utils/calculations.js` -/

/-- The function `calculateVicLandTax`: a chain of hard-coded conditionals. -/
def calculateVicLandTax (landValue : ℚ) : ℚ :=
  if landValue < 50000 then 0
  else if landValue < 100000 then 500
  else if landValue < 300000 then 975
  else if landValue < 600000 then 1350 + (landValue - 300000) * (3 / 1000)
  else if landValue < 1000000 then 2250 + (landValue - 600000) * (6 / 1000)
  else if landValue < 1800000 then 4650 + (landValue - 1000000) * (9 / 1000)
  else if landValue < 3000000 then 11850 + (landValue - 1800000) * (165 / 10000)
  else 31650 + (landValue - 3000000) * (265 / 10000)

/-- The function `calculateStandardStampDuty`: the bracket amount, then `Math.round`. -/
def calculateStandardStampDuty (propertyPrice : ℚ) : ℚ :=
  let stampDuty : ℚ :=
    if propertyPrice ≤ 25000 then propertyPrice * (14 / 1000)
    else if propertyPrice ≤ 130000 then 350 + (propertyPrice - 25000) * (24 / 1000)
    else if propertyPrice ≤ 440000 then 2870 + (propertyPrice - 130000) * (6 / 100)
    else if propertyPrice ≤ 550000 then 21470 + (propertyPrice - 440000) * (6 / 100)
    else if propertyPrice ≤ 960000 then 28070 + (propertyPrice - 550000) * (6 / 100)
    else 52670 + (propertyPrice - 960000) * (55 / 1000)
  (mathRound stampDuty : ℚ)

/-- The function `calculateVicStampDuty`. -/
def calculateVicStampDuty (propertyPrice : ℚ) (isFirstTimeBuyer : Bool) : ℚ :=
  if propertyPrice ≤ 0 then 0
  else if isFirstTimeBuyer = true then
    if propertyPrice ≤ 600000 then 0
    else if propertyPrice ≤ 750000 then
      let baseDuty := calculateStandardStampDuty propertyPrice
      let concession := baseDuty * (750000 - propertyPrice) / 150000
      max 0 (baseDuty - concession)
    else calculateStandardStampDuty propertyPrice
  else calculateStandardStampDuty propertyPrice

/-- The function `calculateMortgagePayment`; the annual rate is a decimal fraction. -/
def calculateMortgagePayment (loanAmount annualInterestRate : ℚ) (loanTermYears : ℕ) : ℚ :=
  if loanAmount ≤ 0 then 0
  else
    let loanTermMonths : ℕ := loanTermYears * MONTHS_PER_YEAR
    let monthlyInterestRate : ℚ := annualInterestRate / MONTHS_PER_YEAR
    if monthlyInterestRate = 0 then loanAmount / loanTermMonths
    else
      loanAmount * (monthlyInterestRate * (1 + monthlyInterestRate) ^ loanTermMonths) /
        ((1 + monthlyInterestRate) ^ loanTermMonths - 1)

/-- The function `calculateNetMonthlyIncome`. -/
def calculateNetMonthlyIncome
    (weeklyRent monthlyMortgage annualMaintenance annualTax annualInsurance : ℚ) : ℚ :=
  let monthlyRent := weeklyRent * WEEKS_PER_MONTH
  let monthlyExpenses := monthlyMortgage + annualMaintenance / MONTHS_PER_YEAR +
    annualTax / MONTHS_PER_YEAR + annualInsurance / MONTHS_PER_YEAR
  monthlyRent - monthlyExpenses

/-- The `inputs` record read by `generateProjectionData`; the rates are percentages. -/
structure Inputs where
  housePrice : ℚ
  downPayment : ℚ
  rentIncomeWeekly : ℚ
  maintenanceCost : ℚ
  insuranceCost : ℚ
  propertyIncrease : ℚ
  etfIncrease : ℚ
  rentIncrease : ℚ
  interestRate : ℚ
  isFirstTimeBuyer : Bool
  deriving DecidableEq, Repr

/-- One element of the array returned by `generateProjectionData`. -/
structure YearPoint where
  year : ℕ
  houseValue : ℚ
  houseEquity : ℚ
  etfEquity : ℚ
  netAnnualCost : ℚ
  deriving DecidableEq, Repr

/-- The mutable variables of the loop of `generateProjectionData`. -/
structure LoopState where
  houseValue : ℚ
  loanBalance : ℚ
  etfValue : ℚ
  rentIncomeAnnual : ℚ
  yearlyData : List YearPoint
  deriving DecidableEq, Repr

/-- The constant `monthlyMortgagePayment` of `generateProjectionData`. -/
def monthlyMortgagePayment (inputs : Inputs) : ℚ :=
  calculateMortgagePayment (inputs.housePrice - inputs.downPayment)
    (inputs.interestRate / 100) LOAN_TERM_YEARS

/-- The constant `monthlyInterestRate` of `generateProjectionData`. -/
def monthlyInterestRate (inputs : Inputs) : ℚ :=
  inputs.interestRate / 100 / MONTHS_PER_YEAR

/-- The body of the inner `month` loop: one payment, then the clamp at zero. -/
def monthStep (payment rate loanBalance : ℚ) : ℚ :=
  let interestPayment := loanBalance * rate
  let principalPayment := payment - interestPayment
  let newBalance := loanBalance - principalPayment
  if newBalance < 0 then 0 else newBalance

/-- The inner `month` loop: `MONTHS_PER_YEAR` payments in sequence. -/
def payYear (payment rate loanBalance : ℚ) : ℚ :=
  (List.range MONTHS_PER_YEAR).foldl (fun b _ => monthStep payment rate b) loanBalance

/-- The variables of `generateProjectionData` just before the `year` loop. -/
def initialState (inputs : Inputs) : LoopState :=
  let stampDuty := calculateVicStampDuty inputs.housePrice inputs.isFirstTimeBuyer
  let loanAmount := inputs.housePrice - inputs.downPayment
  let initialEtf := inputs.downPayment + stampDuty
  { houseValue := inputs.housePrice
    loanBalance := loanAmount
    etfValue := initialEtf
    rentIncomeAnnual := inputs.rentIncomeWeekly * WEEKS_PER_YEAR
    yearlyData := [] }

/-- The body of the `year` loop of `generateProjectionData`. -/
def yearStep (inputs : Inputs) (s : LoopState) (year : ℕ) : LoopState :=
  let propertyIncreaseRate := inputs.propertyIncrease / 100
  let etfIncreaseRate := inputs.etfIncrease / 100
  let rentIncreaseRate := inputs.rentIncrease / 100
  let houseValue := if year > 0 then s.houseValue * (1 + propertyIncreaseRate) else s.houseValue
  let loanBalance :=
    if year > 0 then payYear (monthlyMortgagePayment inputs) (monthlyInterestRate inputs)
      s.loanBalance
    else s.loanBalance
  let currentLandTax := calculateVicLandTax (houseValue * LAND_VALUE_RATIO)
  let annualHouseCost := monthlyMortgagePayment inputs * MONTHS_PER_YEAR +
    inputs.maintenanceCost + currentLandTax + inputs.insuranceCost
  let annualContributionToEtf := annualHouseCost - s.rentIncomeAnnual
  let etfValue :=
    if year > 0 then s.etfValue * (1 + etfIncreaseRate) + annualContributionToEtf
    else s.etfValue
  let rentIncomeAnnual :=
    if year > 0 then s.rentIncomeAnnual * (1 + rentIncreaseRate) else s.rentIncomeAnnual
  { houseValue := houseValue
    loanBalance := loanBalance
    etfValue := etfValue
    rentIncomeAnnual := rentIncomeAnnual
    yearlyData := s.yearlyData ++
      [{ year := year
         houseValue := houseValue
         houseEquity := max 0 (houseValue - loanBalance)
         etfEquity := etfValue
         netAnnualCost := annualContributionToEtf }] }

/-- The loop state after the iterations `year = 0, …, n - 1`. -/
def loopState (inputs : Inputs) (n : ℕ) : LoopState :=
  (List.range n).foldl (yearStep inputs) (initialState inputs)

/-- The function `generateProjectionData`: the loop runs for
`year = 0, …, LOAN_TERM_YEARS` and the collected points are returned. -/
def generateProjectionData (inputs : Inputs) : List YearPoint :=
  (loopState inputs (LOAN_TERM_YEARS + 1)).yearlyData

/-- The default inputs of the application (`DEFAULT_VALUES`). -/
def defaultInputs : Inputs :=
  { housePrice := 800000, downPayment := 160000, rentIncomeWeekly := 500,
    maintenanceCost := 5000, insuranceCost := 1500, propertyIncrease := 5,
    etfIncrease := 8, rentIncrease := 3, interestRate := 6, isFirstTimeBuyer := false }

/-! ## The loop of `generateProjectionData`, iteration by iteration -/

/-- The point pushed by the iteration `year` started in state `s`. -/
def recordedPoint (inputs : Inputs) (s : LoopState) (year : ℕ) : YearPoint :=
  { year := year
    houseValue := (yearStep inputs s year).houseValue
    houseEquity :=
      max 0 ((yearStep inputs s year).houseValue - (yearStep inputs s year).loanBalance)
    etfEquity := (yearStep inputs s year).etfValue
    netAnnualCost := monthlyMortgagePayment inputs * MONTHS_PER_YEAR + inputs.maintenanceCost +
      calculateVicLandTax ((yearStep inputs s year).houseValue * LAND_VALUE_RATIO) +
      inputs.insuranceCost - s.rentIncomeAnnual }

/-- The point recorded for year `k`. -/
def pointOfYear (inputs : Inputs) (k : ℕ) : YearPoint :=
  recordedPoint inputs (loopState inputs k) k

/-! ## Reference definitions, written from the specification -/

/-- The reference payment of the specification: `0` for a principal `≤ 0`, the
straight-line payment when the monthly rate `r = annualRate / 12` is exactly `0`, and
otherwise the annuity formula `P × (r × (1+r)^n) / ((1+r)^n − 1)` with
`n = termYears × 12`. -/
def referenceMonthlyPayment (principal annualRate : ℚ) (termYears : ℕ) : ℚ :=
  if principal ≤ 0 then 0
  else if annualRate / 12 = 0 then principal / ((termYears : ℚ) * 12)
  else
    principal * (annualRate / 12 * (1 + annualRate / 12) ^ (termYears * 12)) /
      ((1 + annualRate / 12) ^ (termYears * 12) - 1)

/-- The bracket of a table whose threshold is the greatest one `≤ V`, if any. -/
def applicableBracket (table : List Bracket) (V : ℚ) : Option Bracket :=
  table.foldl
    (fun best b =>
      if b.threshold ≤ V then
        match best with
        | none => some b
        | some c => if c.threshold ≤ b.threshold then some b else some c
      else best)
    none

/-- The reference bracket tax of the specification:
`baseAmount + (V − threshold) × marginalRate` for the applicable bracket. -/
def bracketTableTax (table : List Bracket) (V : ℚ) : Option ℚ :=
  (applicableBracket table V).map fun b => b.fixedAmount + (V - b.threshold) * b.rate

/-- The closed form of the loan balance after `k` of `N` level payments on a loan `L` at
monthly rate `r`; used to analyse the amortisation loop. -/
def closedBalance (L r : ℚ) (N k : ℕ) : ℚ :=
  if r = 0 then L * ((N : ℚ) - k) / N
  else L * ((1 + r) ^ N - (1 + r) ^ k) / ((1 + r) ^ N - 1)

/-- The outcome of a call of `generateProjectionData`, with failure made explicit: the
source contains no `throw` and no validation of `inputs`, so every call returns its array. -/
def generateProjectionDataOutcome (inputs : Inputs) : Except String (List YearPoint) :=
  Except.ok (generateProjectionData inputs)

/-- The `ScenarioInputs` contract of the specification: `downPayment ≤ purchasePrice`,
`purchasePrice > 0`, and all rates and monetary amounts `≥ 0`. -/
def satisfiesContract (inputs : Inputs) : Prop :=
  inputs.downPayment ≤ inputs.housePrice ∧ 0 < inputs.housePrice ∧
  0 ≤ inputs.downPayment ∧ 0 ≤ inputs.rentIncomeWeekly ∧ 0 ≤ inputs.maintenanceCost ∧
  0 ≤ inputs.insuranceCost ∧ 0 ≤ inputs.propertyIncrease ∧ 0 ≤ inputs.etfIncrease ∧
  0 ≤ inputs.rentIncrease ∧ 0 ≤ inputs.interestRate

/-- An input record that violates the contract twice: the down payment exceeds the house
price and the interest rate is negative. -/
def contractViolatingInputs : Inputs :=
  { housePrice := 500000, downPayment := 600000, rentIncomeWeekly := 500,
    maintenanceCost := 5000, insuranceCost := 1500, propertyIncrease := 5,
    etfIncrease := 8, rentIncrease := 3, interestRate := -1, isFirstTimeBuyer := false }

/-- The first table invariant of the specification: the thresholds start at 0 and are
strictly increasing. -/
def thresholdsIncreasingFromZero (table : List Bracket) : Prop :=
  table.head?.map Bracket.threshold = some 0 ∧
  List.Chain' (fun prev b => prev.threshold < b.threshold) table

/-- The second table invariant of the specification: every bracket after the first has a
`fixedAmount` equal to the previous bracket's `fixedAmount` plus the previous bracket's
`rate` times the span between the two thresholds. -/
def baseAmountsConsistent (table : List Bracket) : Prop :=
  List.Chain'
    (fun prev b => b.fixedAmount = prev.fixedAmount + prev.rate * (b.threshold - prev.threshold))
    table

/-! ## The same functions over JavaScript numbers with their special values

The embedding above takes every field of the input record to be a finite number.  The
number input boxes of the application deliver the text of the box, which is the empty
string once the box is cleared, and `parseFloat` of the empty string is `NaN`.  The
definitions of this section repeat the source over numbers that are a finite value,
`Infinity`, `-Infinity` or `NaN`; finite values are still exact rationals, and zero
stands for `+0`. -/

namespace Js

/-- A JavaScript number: a finite value, `Infinity`, `-Infinity` or `NaN`. -/
inductive JsNum where
  | fin (q : ℚ)
  | posInf
  | negInf
  | nan
  deriving DecidableEq, Repr

open JsNum

/-- The unary minus. -/
def neg : JsNum → JsNum
  | fin a => fin (-a)
  | posInf => negInf
  | negInf => posInf
  | nan => nan

/-- The operator `+` on numbers: `NaN` is absorbing and `Infinity + -Infinity` is `NaN`. -/
def add : JsNum → JsNum → JsNum
  | nan, _ => nan
  | _, nan => nan
  | fin a, fin b => fin (a + b)
  | posInf, negInf => nan
  | negInf, posInf => nan
  | posInf, _ => posInf
  | _, posInf => posInf
  | negInf, _ => negInf
  | _, negInf => negInf

/-- The operator `-` on numbers. -/
def sub (a b : JsNum) : JsNum := add a (neg b)

/-- The operator `*` on numbers: `NaN` is absorbing and `0 * Infinity` is `NaN`. -/
def mul : JsNum → JsNum → JsNum
  | nan, _ => nan
  | _, nan => nan
  | fin a, fin b => fin (a * b)
  | fin a, posInf => if a = 0 then nan else if 0 < a then posInf else negInf
  | fin a, negInf => if a = 0 then nan else if 0 < a then negInf else posInf
  | posInf, fin b => if b = 0 then nan else if 0 < b then posInf else negInf
  | negInf, fin b => if b = 0 then nan else if 0 < b then negInf else posInf
  | posInf, posInf => posInf
  | posInf, negInf => negInf
  | negInf, posInf => negInf
  | negInf, negInf => posInf

/-- The operator `/` on numbers: `NaN` is absorbing, `0 / 0` and `Infinity / Infinity`
are `NaN`, and a non-zero finite value over zero is an infinity. -/
def div : JsNum → JsNum → JsNum
  | nan, _ => nan
  | _, nan => nan
  | fin a, fin b =>
    if b = 0 then (if a = 0 then nan else if 0 < a then posInf else negInf) else fin (a / b)
  | fin _, posInf => fin 0
  | fin _, negInf => fin 0
  | posInf, fin b => if 0 ≤ b then posInf else negInf
  | negInf, fin b => if 0 ≤ b then negInf else posInf
  | posInf, posInf => nan
  | posInf, negInf => nan
  | negInf, posInf => nan
  | negInf, negInf => nan

instance : Add JsNum := ⟨add⟩

instance : Sub JsNum := ⟨sub⟩

instance : Mul JsNum := ⟨mul⟩

instance : Div JsNum := ⟨div⟩

/-- The function `Math.pow` with a whole exponent. -/
def pow (a : JsNum) (n : ℕ) : JsNum :=
  if n = 0 then fin 1
  else
    match a with
    | fin q => fin (q ^ n)
    | posInf => posInf
    | negInf => if n % 2 = 0 then posInf else negInf
    | nan => nan

/-- The comparison `<`: false as soon as one side is `NaN`. -/
def lt : JsNum → JsNum → Bool
  | nan, _ => false
  | _, nan => false
  | fin a, fin b => decide (a < b)
  | fin _, posInf => true
  | fin _, negInf => false
  | posInf, _ => false
  | negInf, negInf => false
  | negInf, _ => true

/-- The comparison `<=`: false as soon as one side is `NaN`. -/
def le : JsNum → JsNum → Bool
  | nan, _ => false
  | _, nan => false
  | fin a, fin b => decide (a ≤ b)
  | fin _, posInf => true
  | fin _, negInf => false
  | posInf, posInf => true
  | posInf, _ => false
  | negInf, _ => true

/-- The comparison `===` on numbers: `NaN` equals nothing. -/
def strictEq : JsNum → JsNum → Bool
  | fin a, fin b => decide (a = b)
  | posInf, posInf => true
  | negInf, negInf => true
  | _, _ => false

/-- The function `Math.max` of two numbers: `NaN` as soon as one of them is `NaN`. -/
def max : JsNum → JsNum → JsNum
  | nan, _ => nan
  | _, nan => nan
  | a, b => if lt a b then b else a

/-- The function `Math.round`. -/
def round : JsNum → JsNum
  | fin q => fin (⌊q + 1 / 2⌋ : ℤ)
  | posInf => posInf
  | negInf => negInf
  | nan => nan

/-- The value of a field of the input record: a number, or the empty string that a
cleared number box delivers.  A box that holds the text of a number is represented by
that number, to which both conversions below take it. -/
inductive FieldValue where
  | number (x : JsNum)
  | emptyString
  deriving DecidableEq, Repr

/-- The conversion applied by the arithmetic and comparison operators: the empty string
becomes `0`. -/
def toNumber : FieldValue → JsNum
  | FieldValue.number x => x
  | FieldValue.emptyString => fin 0

/-- The function `parseFloat`: the empty string becomes `NaN`. -/
def parseFloat : FieldValue → JsNum
  | FieldValue.number x => x
  | FieldValue.emptyString => nan

/-- The function `calculateVicLandTax`. -/
def calculateVicLandTax (landValue : JsNum) : JsNum :=
  if lt landValue (fin 50000) then fin 0
  else if lt landValue (fin 100000) then fin 500
  else if lt landValue (fin 300000) then fin 975
  else if lt landValue (fin 600000) then fin 1350 + (landValue - fin 300000) * fin (3 / 1000)
  else if lt landValue (fin 1000000) then fin 2250 + (landValue - fin 600000) * fin (6 / 1000)
  else if lt landValue (fin 1800000) then
    fin 4650 + (landValue - fin 1000000) * fin (9 / 1000)
  else if lt landValue (fin 3000000) then
    fin 11850 + (landValue - fin 1800000) * fin (165 / 10000)
  else fin 31650 + (landValue - fin 3000000) * fin (265 / 10000)

/-- The function `calculateStandardStampDuty`. -/
def calculateStandardStampDuty (propertyPrice : JsNum) : JsNum :=
  let stampDuty : JsNum :=
    if le propertyPrice (fin 25000) then propertyPrice * fin (14 / 1000)
    else if le propertyPrice (fin 130000) then
      fin 350 + (propertyPrice - fin 25000) * fin (24 / 1000)
    else if le propertyPrice (fin 440000) then
      fin 2870 + (propertyPrice - fin 130000) * fin (6 / 100)
    else if le propertyPrice (fin 550000) then
      fin 21470 + (propertyPrice - fin 440000) * fin (6 / 100)
    else if le propertyPrice (fin 960000) then
      fin 28070 + (propertyPrice - fin 550000) * fin (6 / 100)
    else fin 52670 + (propertyPrice - fin 960000) * fin (55 / 1000)
  round stampDuty

/-- The function `calculateVicStampDuty`; every use of `propertyPrice` in it and in
`calculateStandardStampDuty` is under an operator that converts with `toNumber`, so the
converted value is passed. -/
def calculateVicStampDuty (propertyPrice : JsNum) (isFirstTimeBuyer : Bool) : JsNum :=
  if le propertyPrice (fin 0) then fin 0
  else if isFirstTimeBuyer = true then
    if le propertyPrice (fin 600000) then fin 0
    else if le propertyPrice (fin 750000) then
      let baseDuty := calculateStandardStampDuty propertyPrice
      let concession := baseDuty * (fin 750000 - propertyPrice) / fin 150000
      max (fin 0) (baseDuty - concession)
    else calculateStandardStampDuty propertyPrice
  else calculateStandardStampDuty propertyPrice

/-- The function `calculateMortgagePayment`. -/
def calculateMortgagePayment (loanAmount annualInterestRate : JsNum) (loanTermYears : ℕ) :
    JsNum :=
  if le loanAmount (fin 0) then fin 0
  else
    let loanTermMonths : ℕ := loanTermYears * MONTHS_PER_YEAR
    let monthlyInterestRate : JsNum := annualInterestRate / fin MONTHS_PER_YEAR
    if strictEq monthlyInterestRate (fin 0) then loanAmount / fin loanTermMonths
    else
      loanAmount * (monthlyInterestRate * pow (fin 1 + monthlyInterestRate) loanTermMonths) /
        (pow (fin 1 + monthlyInterestRate) loanTermMonths - fin 1)

/-- The `inputs` record as the application builds it: every field is a number or the
text of a cleared box. -/
structure Inputs where
  housePrice : FieldValue
  downPayment : FieldValue
  rentIncomeWeekly : FieldValue
  maintenanceCost : FieldValue
  insuranceCost : FieldValue
  propertyIncrease : FieldValue
  etfIncrease : FieldValue
  rentIncrease : FieldValue
  interestRate : FieldValue
  isFirstTimeBuyer : Bool
  deriving DecidableEq, Repr

/-- One element of the array returned by `generateProjectionData`. -/
structure YearPoint where
  year : ℕ
  houseValue : JsNum
  houseEquity : JsNum
  etfEquity : JsNum
  netAnnualCost : JsNum
  deriving DecidableEq, Repr

/-- The mutable variables of the loop of `generateProjectionData`. -/
structure LoopState where
  houseValue : JsNum
  loanBalance : JsNum
  etfValue : JsNum
  rentIncomeAnnual : JsNum
  yearlyData : List YearPoint
  deriving DecidableEq, Repr

/-- The constant `loanAmount` of `generateProjectionData`. -/
def loanAmount (inputs : Inputs) : JsNum :=
  toNumber inputs.housePrice - toNumber inputs.downPayment

/-- The constant `monthlyMortgagePayment` of `generateProjectionData`. -/
def monthlyMortgagePayment (inputs : Inputs) : JsNum :=
  calculateMortgagePayment (loanAmount inputs) (toNumber inputs.interestRate / fin 100)
    LOAN_TERM_YEARS

/-- The constant `monthlyInterestRate` of `generateProjectionData`. -/
def monthlyInterestRate (inputs : Inputs) : JsNum :=
  toNumber inputs.interestRate / fin 100 / fin MONTHS_PER_YEAR

/-- The body of the inner `month` loop. -/
def monthStep (payment rate loanBalance : JsNum) : JsNum :=
  let interestPayment := loanBalance * rate
  let principalPayment := payment - interestPayment
  let newBalance := loanBalance - principalPayment
  if lt newBalance (fin 0) then fin 0 else newBalance

/-- The inner `month` loop. -/
def payYear (payment rate loanBalance : JsNum) : JsNum :=
  (List.range MONTHS_PER_YEAR).foldl (fun b _ => monthStep payment rate b) loanBalance

/-- The variables of `generateProjectionData` just before the `year` loop; `loanAmount`
and `initialEtf` are numbers, on which `parseFloat` changes nothing. -/
def initialState (inputs : Inputs) : LoopState :=
  let stampDuty := calculateVicStampDuty (toNumber inputs.housePrice) inputs.isFirstTimeBuyer
  let initialEtf := parseFloat inputs.downPayment + stampDuty
  { houseValue := parseFloat inputs.housePrice
    loanBalance := loanAmount inputs
    etfValue := initialEtf
    rentIncomeAnnual := parseFloat inputs.rentIncomeWeekly * fin WEEKS_PER_YEAR
    yearlyData := [] }

/-- The body of the `year` loop of `generateProjectionData`. -/
def yearStep (inputs : Inputs) (s : LoopState) (year : ℕ) : LoopState :=
  let propertyIncreaseRate := toNumber inputs.propertyIncrease / fin 100
  let etfIncreaseRate := toNumber inputs.etfIncrease / fin 100
  let rentIncreaseRate := toNumber inputs.rentIncrease / fin 100
  let houseValue :=
    if year > 0 then s.houseValue * (fin 1 + propertyIncreaseRate) else s.houseValue
  let loanBalance :=
    if year > 0 then payYear (monthlyMortgagePayment inputs) (monthlyInterestRate inputs)
      s.loanBalance
    else s.loanBalance
  let currentLandTax := calculateVicLandTax (houseValue * fin LAND_VALUE_RATIO)
  let annualHouseCost := monthlyMortgagePayment inputs * fin MONTHS_PER_YEAR +
    parseFloat inputs.maintenanceCost + currentLandTax + parseFloat inputs.insuranceCost
  let annualContributionToEtf := annualHouseCost - s.rentIncomeAnnual
  let etfValue :=
    if year > 0 then s.etfValue * (fin 1 + etfIncreaseRate) + annualContributionToEtf
    else s.etfValue
  let rentIncomeAnnual :=
    if year > 0 then s.rentIncomeAnnual * (fin 1 + rentIncreaseRate) else s.rentIncomeAnnual
  { houseValue := houseValue
    loanBalance := loanBalance
    etfValue := etfValue
    rentIncomeAnnual := rentIncomeAnnual
    yearlyData := s.yearlyData ++
      [{ year := year
         houseValue := houseValue
         houseEquity := max (fin 0) (houseValue - loanBalance)
         etfEquity := etfValue
         netAnnualCost := annualContributionToEtf }] }

/-- The loop state after the iterations `year = 0, …, n - 1`. -/
def loopState (inputs : Inputs) (n : ℕ) : LoopState :=
  (List.range n).foldl (yearStep inputs) (initialState inputs)

/-- The function `generateProjectionData`. -/
def generateProjectionData (inputs : Inputs) : List YearPoint :=
  (loopState inputs (LOAN_TERM_YEARS + 1)).yearlyData

/-- The default record of the application after the user has cleared the house price
box: `housePrice` is the empty string, every other field keeps its default. -/
def clearedHousePriceInputs : Inputs :=
  { housePrice := FieldValue.emptyString
    downPayment := FieldValue.number (fin 160000)
    rentIncomeWeekly := FieldValue.number (fin 500)
    maintenanceCost := FieldValue.number (fin 5000)
    insuranceCost := FieldValue.number (fin 1500)
    propertyIncrease := FieldValue.number (fin 5)
    etfIncrease := FieldValue.number (fin 8)
    rentIncrease := FieldValue.number (fin 3)
    interestRate := FieldValue.number (fin 6)
    isFirstTimeBuyer := false }

end Js

/-! ## Lemmas on the loop -/

theorem loopState_zero (inputs : Inputs) : loopState inputs 0 = initialState inputs := rfl

theorem loopState_succ (inputs : Inputs) (n : ℕ) :
    loopState inputs (n + 1) = yearStep inputs (loopState inputs n) n := by
  unfold loopState
  rw [List.range_succ, List.foldl_append]
  rfl

theorem yearStep_yearlyData (inputs : Inputs) (s : LoopState) (year : ℕ) :
    (yearStep inputs s year).yearlyData = s.yearlyData ++ [recordedPoint inputs s year] := rfl

theorem loopState_yearlyData (inputs : Inputs) (n : ℕ) :
    (loopState inputs n).yearlyData = (List.range n).map (pointOfYear inputs) := by
  induction n with
  | zero => rfl
  | succ n ih =>
    rw [loopState_succ, yearStep_yearlyData, ih, List.range_succ, List.map_append]
    rfl

theorem generateProjectionData_eq_map (inputs : Inputs) :
    generateProjectionData inputs = (List.range 31).map (pointOfYear inputs) :=
  loopState_yearlyData inputs 31

theorem generateProjectionData_getElem? (inputs : Inputs) (k : ℕ) (hk : k < 31) :
    (generateProjectionData inputs)[k]? = some (pointOfYear inputs k) := by
  rw [generateProjectionData_eq_map, List.getElem?_map, List.getElem?_range hk]
  rfl

theorem loopState_houseValue (inputs : Inputs) (n : ℕ) :
    (loopState inputs (n + 1)).houseValue =
      inputs.housePrice * (1 + inputs.propertyIncrease / 100) ^ n := by
  induction n with
  | zero => simp [loopState_succ, loopState_zero, yearStep, initialState]
  | succ n ih =>
    rw [loopState_succ]
    simp only [yearStep, Nat.succ_pos, gt_iff_lt, if_true, ih]
    ring

theorem loopState_rentIncomeAnnual (inputs : Inputs) (n : ℕ) :
    (loopState inputs (n + 1)).rentIncomeAnnual =
      inputs.rentIncomeWeekly * WEEKS_PER_YEAR * (1 + inputs.rentIncrease / 100) ^ n := by
  induction n with
  | zero => simp [loopState_succ, loopState_zero, yearStep, initialState]
  | succ n ih =>
    rw [loopState_succ]
    simp only [yearStep, Nat.succ_pos, gt_iff_lt, if_true, ih]
    ring

theorem pointOfYear_year (inputs : Inputs) (k : ℕ) : (pointOfYear inputs k).year = k := rfl

theorem pointOfYear_houseValue (inputs : Inputs) (k : ℕ) :
    (pointOfYear inputs k).houseValue =
      inputs.housePrice * (1 + inputs.propertyIncrease / 100) ^ k := by
  rw [← loopState_houseValue, loopState_succ]
  rfl

theorem pointOfYear_etfEquity (inputs : Inputs) (k : ℕ) :
    (pointOfYear inputs k).etfEquity = (loopState inputs (k + 1)).etfValue := by
  rw [loopState_succ]
  rfl

theorem pointOfYear_netAnnualCost (inputs : Inputs) (k : ℕ) :
    (pointOfYear inputs (k + 1)).netAnnualCost =
      monthlyMortgagePayment inputs * 12 + inputs.maintenanceCost +
        calculateVicLandTax
          (inputs.housePrice * (1 + inputs.propertyIncrease / 100) ^ (k + 1) * LAND_VALUE_RATIO) +
        inputs.insuranceCost -
        inputs.rentIncomeWeekly * WEEKS_PER_YEAR * (1 + inputs.rentIncrease / 100) ^ k := by
  rw [← loopState_houseValue, ← loopState_rentIncomeAnnual, loopState_succ inputs (k + 1)]
  simp [pointOfYear, recordedPoint, MONTHS_PER_YEAR]

theorem loopState_etfValue_succ (inputs : Inputs) (k : ℕ) :
    (loopState inputs (k + 2)).etfValue =
      (loopState inputs (k + 1)).etfValue * (1 + inputs.etfIncrease / 100) +
        (pointOfYear inputs (k + 1)).netAnnualCost := by
  rw [loopState_succ inputs (k + 1)]
  simp [pointOfYear, recordedPoint, yearStep]

theorem foldl_range_const {α : Type} (f : α → α) (n : ℕ) (x : α) :
    (List.range n).foldl (fun b _ => f b) x = f^[n] x := by
  induction n with
  | zero => rfl
  | succ n ih => rw [List.range_succ, List.foldl_append, ih, Function.iterate_succ_apply']; rfl

theorem payYear_eq_iterate (payment rate b : ℚ) :
    payYear payment rate b = (monthStep payment rate)^[12] b :=
  foldl_range_const (monthStep payment rate) 12 b

theorem loopState_loanBalance (inputs : Inputs) (y : ℕ) :
    (loopState inputs (y + 1)).loanBalance =
      (monthStep (monthlyMortgagePayment inputs) (monthlyInterestRate inputs))^[12 * y]
        (inputs.housePrice - inputs.downPayment) := by
  induction y with
  | zero => simp [loopState_succ, loopState_zero, yearStep, initialState]
  | succ y ih =>
    rw [loopState_succ]
    simp only [yearStep, Nat.succ_pos, gt_iff_lt, if_true, ih, payYear_eq_iterate]
    rw [← Function.iterate_add_apply]
    congr 1
    omega

theorem iterate_monthStep_eq (pay r : ℚ) (c : ℕ → ℚ) (N : ℕ)
    (hstep : ∀ k, k < N → c (k + 1) = c k - (pay - c k * r))
    (hnn : ∀ k, k ≤ N → 0 ≤ c k) :
    ∀ k, k ≤ N → (monthStep pay r)^[k] (c 0) = c k := by
  intro k
  induction k with
  | zero => intro _; rfl
  | succ k ih =>
    intro hk
    rw [Function.iterate_succ_apply', ih (by omega)]
    unfold monthStep
    simp only
    rw [← hstep k (by omega), if_neg (not_lt.mpr (hnn (k + 1) hk))]

theorem closedBalance_zero (L r : ℚ) (N : ℕ) (hN : 0 < N) (hr : 0 ≤ r) :
    closedBalance L r N 0 = L := by
  unfold closedBalance
  split_ifs with h
  · have : (N : ℚ) ≠ 0 := by positivity
    field_simp
  · have hr' : 0 < r := lt_of_le_of_ne hr (Ne.symm h)
    have h1 : (1 : ℚ) < (1 + r) ^ N := one_lt_pow₀ (by linarith) (by omega)
    have : (1 + r) ^ N - 1 ≠ 0 := by linarith
    field_simp

theorem closedBalance_last (L r : ℚ) (N : ℕ) : closedBalance L r N N = 0 := by
  unfold closedBalance
  split_ifs <;> simp

theorem closedBalance_pos (L r : ℚ) (N k : ℕ) (hL : 0 < L) (hr : 0 ≤ r) (hk : k < N) :
    0 < closedBalance L r N k := by
  unfold closedBalance
  split_ifs with h
  · have h1 : (k : ℚ) < N := by exact_mod_cast hk
    have h2 : (0 : ℚ) < N := by exact_mod_cast (by omega : 0 < N)
    exact div_pos (mul_pos hL (by linarith)) h2
  · have hr' : 0 < r := lt_of_le_of_ne hr (Ne.symm h)
    have h1 : (1 : ℚ) < (1 + r) ^ N := one_lt_pow₀ (by linarith) (by omega)
    have h2 : (1 + r) ^ k < (1 + r) ^ N := pow_lt_pow_right₀ (by linarith) hk
    exact div_pos (mul_pos hL (by linarith)) (by linarith)

theorem closedBalance_step (L r : ℚ) (N k : ℕ) (hN : 0 < N) (hr : 0 ≤ r) :
    closedBalance L r N (k + 1) =
      closedBalance L r N k -
        ((if r = 0 then L / (N : ℚ) else L * (r * (1 + r) ^ N) / ((1 + r) ^ N - 1)) -
          closedBalance L r N k * r) := by
  unfold closedBalance
  split_ifs with h
  · have : (N : ℚ) ≠ 0 := by positivity
    subst h
    push_cast
    field_simp
    ring
  · have hr' : 0 < r := lt_of_le_of_ne hr (Ne.symm h)
    have h1 : (1 : ℚ) < (1 + r) ^ N := one_lt_pow₀ (by linarith) (by omega)
    have : (1 + r) ^ N - 1 ≠ 0 := by linarith
    field_simp
    ring

theorem monthlyMortgagePayment_eq (inputs : Inputs)
    (hlt : inputs.downPayment < inputs.housePrice) :
    monthlyMortgagePayment inputs =
      if monthlyInterestRate inputs = 0 then
        (inputs.housePrice - inputs.downPayment) / ((360 : ℕ) : ℚ)
      else
        (inputs.housePrice - inputs.downPayment) *
          (monthlyInterestRate inputs * (1 + monthlyInterestRate inputs) ^ 360) /
          ((1 + monthlyInterestRate inputs) ^ 360 - 1) := by
  have hL : ¬ inputs.housePrice - inputs.downPayment ≤ 0 := by linarith
  unfold monthlyMortgagePayment calculateMortgagePayment
  rw [if_neg hL]
  rfl

theorem loanBalance_closed (inputs : Inputs) (hlt : inputs.downPayment < inputs.housePrice)
    (hr : 0 ≤ inputs.interestRate) (k : ℕ) (hk : k ≤ 360) :
    (monthStep (monthlyMortgagePayment inputs) (monthlyInterestRate inputs))^[k]
        (inputs.housePrice - inputs.downPayment) =
      closedBalance (inputs.housePrice - inputs.downPayment) (monthlyInterestRate inputs)
        360 k := by
  have hr' : 0 ≤ monthlyInterestRate inputs := by
    unfold monthlyInterestRate MONTHS_PER_YEAR
    positivity
  have hL : 0 < inputs.housePrice - inputs.downPayment := by linarith
  have h := iterate_monthStep_eq (monthlyMortgagePayment inputs) (monthlyInterestRate inputs)
    (closedBalance (inputs.housePrice - inputs.downPayment) (monthlyInterestRate inputs) 360)
    360
    (fun j _ => by
      rw [monthlyMortgagePayment_eq inputs hlt]
      exact closedBalance_step _ _ 360 j (by norm_num) hr')
    (fun j hj => by
      rcases Nat.lt_or_ge j 360 with hj' | hj'
      · exact (closedBalance_pos _ _ 360 j hL hr' hj').le
      · have : j = 360 := by omega
        subst this
        exact (closedBalance_last _ _ 360).ge)
    k hk
  rw [closedBalance_zero _ _ 360 (by norm_num) hr'] at h
  exact h

theorem pointOfYear_houseEquity (inputs : Inputs) (k : ℕ) :
    (pointOfYear inputs k).houseEquity =
      max 0 ((loopState inputs (k + 1)).houseValue - (loopState inputs (k + 1)).loanBalance) := by
  rw [loopState_succ]
  rfl

theorem mortgagePayment_default_bounds :
    (383712 : ℚ) - 1 / 2 ≤ calculateMortgagePayment 640000 (6 / 100) 30 * 100 ∧
    calculateMortgagePayment 640000 (6 / 100) 30 * 100 < 383712 + 1 / 2 := by
  have e : calculateMortgagePayment 640000 (6 / 100) 30 =
      640000 * (1 / 200 * (201 / 200) ^ 360) / ((201 / 200) ^ 360 - 1) := by
    unfold calculateMortgagePayment
    norm_num [MONTHS_PER_YEAR]
  rw [e]
  constructor <;> norm_num

/-! ## Claims -/

/-- C1: for `0 ≤ downPayment < housePrice` and `interestRate ≥ 0` the loan balance of the
loop after year `y` is the result of `12 * y` monthly steps; in each of the 360 steps the
balance before the step is positive and the clamp guard is false, the balance after the
360 steps is exactly `0`, and the year-30 point has `houseEquity = houseValue`. -/
theorem amortisation_reaches_zero (inputs : Inputs) (h0 : 0 ≤ inputs.downPayment)
    (hlt : inputs.downPayment < inputs.housePrice) (hr : 0 ≤ inputs.interestRate) :
    (∀ y : ℕ, (loopState inputs (y + 1)).loanBalance =
      (monthStep (monthlyMortgagePayment inputs) (monthlyInterestRate inputs))^[12 * y]
        (inputs.housePrice - inputs.downPayment)) ∧
    monthlyMortgagePayment inputs =
      calculateMortgagePayment (inputs.housePrice - inputs.downPayment)
        (inputs.interestRate / 100) 30 ∧
    (∀ m : Fin 360,
      0 < (monthStep (monthlyMortgagePayment inputs) (monthlyInterestRate inputs))^[m.val]
        (inputs.housePrice - inputs.downPayment) ∧
      ¬ ((monthStep (monthlyMortgagePayment inputs) (monthlyInterestRate inputs))^[m.val]
          (inputs.housePrice - inputs.downPayment) -
        (monthlyMortgagePayment inputs -
          (monthStep (monthlyMortgagePayment inputs) (monthlyInterestRate inputs))^[m.val]
            (inputs.housePrice - inputs.downPayment) * monthlyInterestRate inputs) < 0)) ∧
    (monthStep (monthlyMortgagePayment inputs) (monthlyInterestRate inputs))^[360]
      (inputs.housePrice - inputs.downPayment) = 0 ∧
    (loopState inputs 31).loanBalance = 0 ∧
    (∃ p, (generateProjectionData inputs)[30]? = some p ∧ p.year = 30 ∧
      p.houseEquity = p.houseValue) := by
  have hr' : 0 ≤ monthlyInterestRate inputs := by
    unfold monthlyInterestRate MONTHS_PER_YEAR
    positivity
  have hL : 0 < inputs.housePrice - inputs.downPayment := by linarith
  have h360 : (monthStep (monthlyMortgagePayment inputs) (monthlyInterestRate inputs))^[360]
      (inputs.housePrice - inputs.downPayment) = 0 := by
    rw [loanBalance_closed inputs hlt hr 360 le_rfl, closedBalance_last]
  have h31 : (loopState inputs 31).loanBalance = 0 := by
    rw [loopState_loanBalance inputs 30]
    exact h360
  refine ⟨loopState_loanBalance inputs, rfl, ?_, h360, h31, ?_⟩
  · intro m
    rw [loanBalance_closed inputs hlt hr m.val m.isLt.le]
    refine ⟨closedBalance_pos _ _ 360 m.val hL hr' m.isLt, ?_⟩
    rw [monthlyMortgagePayment_eq inputs hlt,
      ← closedBalance_step _ _ 360 m.val (by norm_num) hr', not_lt]
    rcases Nat.lt_or_ge (m.val + 1) 360 with h | h
    · exact (closedBalance_pos _ _ 360 (m.val + 1) hL hr' h).le
    · have e : m.val + 1 = 360 := by omega
      rw [e, closedBalance_last]
  · refine ⟨pointOfYear inputs 30, generateProjectionData_getElem? inputs 30 (by norm_num),
      rfl, ?_⟩
    rw [pointOfYear_houseEquity, h31, sub_zero, loopState_houseValue, pointOfYear_houseValue]
    apply max_eq_right
    have hp : 0 ≤ inputs.housePrice := by linarith
    exact mul_nonneg hp (Even.pow_nonneg (by decide) _)

/-- C1 at the default inputs. -/
theorem amortisation_reaches_zero_witness :
    0 ≤ defaultInputs.downPayment ∧ defaultInputs.downPayment < defaultInputs.housePrice ∧
    0 ≤ defaultInputs.interestRate ∧
    ((∀ y : ℕ, (loopState defaultInputs (y + 1)).loanBalance =
      (monthStep (monthlyMortgagePayment defaultInputs)
        (monthlyInterestRate defaultInputs))^[12 * y]
        (defaultInputs.housePrice - defaultInputs.downPayment)) ∧
    monthlyMortgagePayment defaultInputs =
      calculateMortgagePayment (defaultInputs.housePrice - defaultInputs.downPayment)
        (defaultInputs.interestRate / 100) 30 ∧
    (∀ m : Fin 360,
      0 < (monthStep (monthlyMortgagePayment defaultInputs)
        (monthlyInterestRate defaultInputs))^[m.val]
        (defaultInputs.housePrice - defaultInputs.downPayment) ∧
      ¬ ((monthStep (monthlyMortgagePayment defaultInputs)
          (monthlyInterestRate defaultInputs))^[m.val]
          (defaultInputs.housePrice - defaultInputs.downPayment) -
        (monthlyMortgagePayment defaultInputs -
          (monthStep (monthlyMortgagePayment defaultInputs)
            (monthlyInterestRate defaultInputs))^[m.val]
            (defaultInputs.housePrice - defaultInputs.downPayment) *
              monthlyInterestRate defaultInputs) < 0)) ∧
    (monthStep (monthlyMortgagePayment defaultInputs)
      (monthlyInterestRate defaultInputs))^[360]
      (defaultInputs.housePrice - defaultInputs.downPayment) = 0 ∧
    (loopState defaultInputs 31).loanBalance = 0 ∧
    (∃ p, (generateProjectionData defaultInputs)[30]? = some p ∧ p.year = 30 ∧
      p.houseEquity = p.houseValue)) :=
  ⟨by norm_num [defaultInputs], by norm_num [defaultInputs], by norm_num [defaultInputs],
    amortisation_reaches_zero defaultInputs (by norm_num [defaultInputs])
      (by norm_num [defaultInputs]) (by norm_num [defaultInputs])⟩

/-- C2, as stated: the monthly payment on 640000 at 6% over 30 years, rounded to two
decimals, is not 3837.21. -/
theorem mortgagePayment_default_ne_3837_21 :
    ((mathRound (calculateMortgagePayment (800000 - 160000) (6 / 100) 30 * 100) : ℤ) : ℚ) / 100
      ≠ 383721 / 100 := by
  obtain ⟨h1, h2⟩ := mortgagePayment_default_bounds
  have e : mathRound (calculateMortgagePayment (800000 - 160000) (6 / 100) 30 * 100) =
      383712 := by
    unfold mathRound
    rw [Int.floor_eq_iff]
    norm_num at h1 h2 ⊢
    constructor <;> linarith
  rw [e]
  norm_num

/-- C2, amended: the monthly payment on 640000 (800000 less 160000) at 6% over 30 years,
rounded to two decimals, is 3837.12; it lies in `[3837.115, 3837.125)`. -/
theorem mortgagePayment_default_rounds_to_3837_12 :
    ((mathRound (calculateMortgagePayment (800000 - 160000) (6 / 100) 30 * 100) : ℤ) : ℚ) / 100
      = 383712 / 100 ∧
    (3837115 : ℚ) / 1000 ≤ calculateMortgagePayment (800000 - 160000) (6 / 100) 30 ∧
    calculateMortgagePayment (800000 - 160000) (6 / 100) 30 < 3837125 / 1000 := by
  obtain ⟨h1, h2⟩ := mortgagePayment_default_bounds
  have e : mathRound (calculateMortgagePayment (800000 - 160000) (6 / 100) 30 * 100) =
      383712 := by
    unfold mathRound
    rw [Int.floor_eq_iff]
    norm_num at h1 h2 ⊢
    constructor <;> linarith
  rw [e]
  norm_num at h1 h2 ⊢
  constructor <;> linarith


/-- C4: for every input record `generateProjectionData` returns exactly 31 points
(`LOAN_TERM_YEARS + 1`), the point at index `i` has `year = i`, and the year fields
increase strictly. -/
theorem projection_has_31_points_with_year_index (inputs : Inputs) :
    (generateProjectionData inputs).length = LOAN_TERM_YEARS + 1 ∧
    (generateProjectionData inputs).length = 31 ∧
    (∀ i : Fin 31, ∃ p, (generateProjectionData inputs)[i.val]? = some p ∧ p.year = i.val) ∧
    (generateProjectionData inputs).map YearPoint.year = List.range 31 ∧
    ((generateProjectionData inputs).map YearPoint.year).Pairwise (· < ·) := by
  have hmap : (generateProjectionData inputs).map YearPoint.year = List.range 31 := by
    rw [generateProjectionData_eq_map, List.map_map]
    exact List.map_id _
  refine ⟨?_, ?_, ?_, hmap, ?_⟩
  · simp [generateProjectionData_eq_map, LOAN_TERM_YEARS]
  · simp [generateProjectionData_eq_map]
  · intro i
    exact ⟨pointOfYear inputs i.val, generateProjectionData_getElem? inputs i.val i.isLt, rfl⟩
  · rw [hmap]
    exact List.pairwise_lt_range 31

/-- C9: the `etfEquity` values follow the reference recurrence: point 0 holds
`downPayment + calculateVicStampDuty housePrice isFirstTimeBuyer`, and point `k + 1`
holds the `etfEquity` of point `k` grown by `etfIncrease` percent plus the
`netAnnualCost` of point `k + 1`, for every `k` in `0..29`. -/
theorem etfEquity_follows_recurrence (inputs : Inputs) :
    (∃ p, (generateProjectionData inputs)[0]? = some p ∧
      p.etfEquity = inputs.downPayment +
        calculateVicStampDuty inputs.housePrice inputs.isFirstTimeBuyer) ∧
    (∀ k : Fin 30, ∃ p q, (generateProjectionData inputs)[k.val]? = some p ∧
      (generateProjectionData inputs)[k.val + 1]? = some q ∧
      q.etfEquity = p.etfEquity * (1 + inputs.etfIncrease / 100) + q.netAnnualCost) := by
  constructor
  · refine ⟨pointOfYear inputs 0, generateProjectionData_getElem? inputs 0 (by norm_num), ?_⟩
    simp [pointOfYear, recordedPoint, yearStep, loopState_zero, initialState]
  · intro k
    refine ⟨pointOfYear inputs k.val, pointOfYear inputs (k.val + 1),
      generateProjectionData_getElem? inputs k.val (by omega),
      generateProjectionData_getElem? inputs (k.val + 1) (by omega), ?_⟩
    rw [pointOfYear_etfEquity, pointOfYear_etfEquity, loopState_etfValue_succ]

/-- C10: for every year `k` in `1..30` the `netAnnualCost` of point `k` is
`12 * monthlyPayment + maintenanceCost + landTax + insuranceCost - rent`, where the
payment is computed once from the original loan, the land tax is taken on 0.8 of the
house value already appreciated `k` times, and the rent is the annual rent grown
`k - 1` times. -/
theorem netAnnualCost_closed_form (inputs : Inputs) (k : ℕ) (h1 : 1 ≤ k) (h30 : k ≤ 30) :
    ∃ p, (generateProjectionData inputs)[k]? = some p ∧
      p.netAnnualCost =
        12 * calculateMortgagePayment (inputs.housePrice - inputs.downPayment)
            (inputs.interestRate / 100) 30 +
          inputs.maintenanceCost +
          calculateVicLandTax
            (8 / 10 * inputs.housePrice * (1 + inputs.propertyIncrease / 100) ^ k) +
          inputs.insuranceCost -
          52 * inputs.rentIncomeWeekly * (1 + inputs.rentIncrease / 100) ^ (k - 1) := by
  refine ⟨pointOfYear inputs k, generateProjectionData_getElem? inputs k (by omega), ?_⟩
  obtain ⟨j, rfl⟩ : ∃ j, k = j + 1 := ⟨k - 1, by omega⟩
  rw [pointOfYear_netAnnualCost]
  simp only [monthlyMortgagePayment, LOAN_TERM_YEARS, LAND_VALUE_RATIO, WEEKS_PER_YEAR,
    Nat.add_sub_cancel]
  have e : inputs.housePrice * (1 + inputs.propertyIncrease / 100) ^ (j + 1) * (8 / 10) =
      8 / 10 * inputs.housePrice * (1 + inputs.propertyIncrease / 100) ^ (j + 1) := by ring
  rw [e]
  ring

/-- C10 at the default inputs and year 1. -/
theorem netAnnualCost_closed_form_witness :
    1 ≤ 1 ∧ 1 ≤ 30 ∧
    ∃ p, (generateProjectionData defaultInputs)[1]? = some p ∧
      p.netAnnualCost =
        12 * calculateMortgagePayment (defaultInputs.housePrice - defaultInputs.downPayment)
            (defaultInputs.interestRate / 100) 30 +
          defaultInputs.maintenanceCost +
          calculateVicLandTax
            (8 / 10 * defaultInputs.housePrice *
              (1 + defaultInputs.propertyIncrease / 100) ^ 1) +
          defaultInputs.insuranceCost -
          52 * defaultInputs.rentIncomeWeekly *
            (1 + defaultInputs.rentIncrease / 100) ^ (1 - 1) :=
  ⟨by decide, by decide, netAnnualCost_closed_form defaultInputs 1 (by decide) (by decide)⟩

/-- C3: for a term of at least one year `calculateMortgagePayment` equals the piecewise
reference: `0` when the loan is `≤ 0`, `loanAmount / (termYears * 12)` when the monthly
rate `annualRate / 12` is exactly `0`, and the annuity formula otherwise; the payment for
principal 0 at rate 6 over 30 years is 0, and for 500000 at rate 0 it is `500000 / 360`. -/
theorem calculateMortgagePayment_eq_reference (loanAmount annualRate : ℚ) (termYears : ℕ)
    (_hterm : 1 ≤ termYears) :
    calculateMortgagePayment loanAmount annualRate termYears =
        referenceMonthlyPayment loanAmount annualRate termYears ∧
    (loanAmount ≤ 0 → calculateMortgagePayment loanAmount annualRate termYears = 0) ∧
    (0 < loanAmount → annualRate / 12 = 0 →
      calculateMortgagePayment loanAmount annualRate termYears =
        loanAmount / ((termYears : ℚ) * 12)) ∧
    (0 < loanAmount → annualRate / 12 ≠ 0 →
      calculateMortgagePayment loanAmount annualRate termYears =
        loanAmount * (annualRate / 12 * (1 + annualRate / 12) ^ (termYears * 12)) /
          ((1 + annualRate / 12) ^ (termYears * 12) - 1)) ∧
    calculateMortgagePayment 0 6 30 = 0 ∧
    calculateMortgagePayment 500000 0 30 = 500000 / 360 := by
  refine ⟨?_, ?_, ?_, ?_, ?_, ?_⟩
  · simp [calculateMortgagePayment, referenceMonthlyPayment, MONTHS_PER_YEAR]
  · intro h
    simp [calculateMortgagePayment, h]
  · intro h hr
    have hr0 : annualRate = 0 := by simpa using hr
    simp [calculateMortgagePayment, not_le.mpr h, MONTHS_PER_YEAR, hr0]
  · intro h hr
    have hr0 : ¬ annualRate = 0 := by simpa using hr
    simp [calculateMortgagePayment, not_le.mpr h, MONTHS_PER_YEAR, hr0]
  · simp [calculateMortgagePayment]
  · norm_num [calculateMortgagePayment, MONTHS_PER_YEAR]

/-- C3 at a loan of 640000, annual rate 0.06 and a term of 30 years. -/
theorem calculateMortgagePayment_eq_reference_witness :
    1 ≤ 30 ∧
    calculateMortgagePayment 640000 (6 / 100) 30 =
        referenceMonthlyPayment 640000 (6 / 100) 30 ∧
    ((640000 : ℚ) ≤ 0 → calculateMortgagePayment 640000 (6 / 100) 30 = 0) ∧
    ((0 : ℚ) < 640000 → (6 / 100 : ℚ) / 12 = 0 →
      calculateMortgagePayment 640000 (6 / 100) 30 = 640000 / (((30 : ℕ) : ℚ) * 12)) ∧
    ((0 : ℚ) < 640000 → (6 / 100 : ℚ) / 12 ≠ 0 →
      calculateMortgagePayment 640000 (6 / 100) 30 =
        640000 * ((6 / 100 : ℚ) / 12 * (1 + (6 / 100 : ℚ) / 12) ^ (30 * 12)) /
          ((1 + (6 / 100 : ℚ) / 12) ^ (30 * 12) - 1)) ∧
    calculateMortgagePayment 0 6 30 = 0 ∧
    calculateMortgagePayment 500000 0 30 = 500000 / 360 :=
  ⟨by decide, calculateMortgagePayment_eq_reference 640000 (6 / 100) 30 (by decide)⟩

/-- C5: for every land value `V ≥ 0`, `calculateVicLandTax V` is
`fixedAmount + (V - threshold) * rate` for the entry of `VIC_LAND_TAX_BRACKETS` whose
threshold is the greatest one `≤ V`, so the conditionals agree with the table lookup
of the specification; land value 640000 gives `2250 + (640000 - 600000) * 0.006 = 2490`. -/
theorem calculateVicLandTax_eq_bracket_table (V : ℚ) (hV : 0 ≤ V) :
    (∃ b ∈ VIC_LAND_TAX_BRACKETS, b.threshold ≤ V ∧
      (∀ c ∈ VIC_LAND_TAX_BRACKETS, c.threshold ≤ V → c.threshold ≤ b.threshold) ∧
      calculateVicLandTax V = b.fixedAmount + (V - b.threshold) * b.rate) ∧
    bracketTableTax VIC_LAND_TAX_BRACKETS V = some (calculateVicLandTax V) ∧
    calculateVicLandTax 640000 = 2250 + (640000 - 600000) * (6 / 1000) ∧
    calculateVicLandTax 640000 = 2490 := by
  refine ⟨?_, ?_, ?_, ?_⟩
  · unfold calculateVicLandTax
    split_ifs with h1 h2 h3 h4 h5 h6 h7
    · refine ⟨⟨0, 0, 0⟩, by simp [VIC_LAND_TAX_BRACKETS], hV, ?_, by simp⟩
      intro c hc hcV
      simp only [VIC_LAND_TAX_BRACKETS, List.mem_cons, List.mem_singleton, List.not_mem_nil,
        or_false] at hc
      rcases hc with rfl | rfl | rfl | rfl | rfl | rfl | rfl | rfl <;>
        simp only at hcV ⊢ <;> linarith
    · refine ⟨⟨50000, 0, 500⟩, by simp [VIC_LAND_TAX_BRACKETS], by simp only; linarith, ?_,
        by simp⟩
      intro c hc hcV
      simp only [VIC_LAND_TAX_BRACKETS, List.mem_cons, List.mem_singleton, List.not_mem_nil,
        or_false] at hc
      rcases hc with rfl | rfl | rfl | rfl | rfl | rfl | rfl | rfl <;>
        simp only at hcV ⊢ <;> linarith
    · refine ⟨⟨100000, 0, 975⟩, by simp [VIC_LAND_TAX_BRACKETS], by simp only; linarith, ?_,
        by simp⟩
      intro c hc hcV
      simp only [VIC_LAND_TAX_BRACKETS, List.mem_cons, List.mem_singleton, List.not_mem_nil,
        or_false] at hc
      rcases hc with rfl | rfl | rfl | rfl | rfl | rfl | rfl | rfl <;>
        simp only at hcV ⊢ <;> linarith
    · refine ⟨⟨300000, 3 / 1000, 1350⟩, by simp [VIC_LAND_TAX_BRACKETS],
        by simp only; linarith, ?_, rfl⟩
      intro c hc hcV
      simp only [VIC_LAND_TAX_BRACKETS, List.mem_cons, List.mem_singleton, List.not_mem_nil,
        or_false] at hc
      rcases hc with rfl | rfl | rfl | rfl | rfl | rfl | rfl | rfl <;>
        simp only at hcV ⊢ <;> linarith
    · refine ⟨⟨600000, 6 / 1000, 2250⟩, by simp [VIC_LAND_TAX_BRACKETS],
        by simp only; linarith, ?_, rfl⟩
      intro c hc hcV
      simp only [VIC_LAND_TAX_BRACKETS, List.mem_cons, List.mem_singleton, List.not_mem_nil,
        or_false] at hc
      rcases hc with rfl | rfl | rfl | rfl | rfl | rfl | rfl | rfl <;>
        simp only at hcV ⊢ <;> linarith
    · refine ⟨⟨1000000, 9 / 1000, 4650⟩, by simp [VIC_LAND_TAX_BRACKETS],
        by simp only; linarith, ?_, rfl⟩
      intro c hc hcV
      simp only [VIC_LAND_TAX_BRACKETS, List.mem_cons, List.mem_singleton, List.not_mem_nil,
        or_false] at hc
      rcases hc with rfl | rfl | rfl | rfl | rfl | rfl | rfl | rfl <;>
        simp only at hcV ⊢ <;> linarith
    · refine ⟨⟨1800000, 165 / 10000, 11850⟩, by simp [VIC_LAND_TAX_BRACKETS],
        by simp only; linarith, ?_, rfl⟩
      intro c hc hcV
      simp only [VIC_LAND_TAX_BRACKETS, List.mem_cons, List.mem_singleton, List.not_mem_nil,
        or_false] at hc
      rcases hc with rfl | rfl | rfl | rfl | rfl | rfl | rfl | rfl <;>
        simp only at hcV ⊢ <;> linarith
    · refine ⟨⟨3000000, 265 / 10000, 31650⟩, by simp [VIC_LAND_TAX_BRACKETS],
        by simp only; linarith, ?_, rfl⟩
      intro c hc hcV
      simp only [VIC_LAND_TAX_BRACKETS, List.mem_cons, List.mem_singleton, List.not_mem_nil,
        or_false] at hc
      rcases hc with rfl | rfl | rfl | rfl | rfl | rfl | rfl | rfl <;>
        simp only at hcV ⊢ <;> linarith
  · unfold calculateVicLandTax
    split_ifs with h1 h2 h3 h4 h5 h6 h7
    · have a1 : ¬ (50000 : ℚ) ≤ V := by linarith
      have a2 : ¬ (100000 : ℚ) ≤ V := by linarith
      have a3 : ¬ (300000 : ℚ) ≤ V := by linarith
      have a4 : ¬ (600000 : ℚ) ≤ V := by linarith
      have a5 : ¬ (1000000 : ℚ) ≤ V := by linarith
      have a6 : ¬ (1800000 : ℚ) ≤ V := by linarith
      have a7 : ¬ (3000000 : ℚ) ≤ V := by linarith
      norm_num [bracketTableTax, applicableBracket, VIC_LAND_TAX_BRACKETS, hV, a1, a2, a3, a4,
        a5, a6, a7]
    · have a1 : (50000 : ℚ) ≤ V := by linarith
      have a2 : ¬ (100000 : ℚ) ≤ V := by linarith
      have a3 : ¬ (300000 : ℚ) ≤ V := by linarith
      have a4 : ¬ (600000 : ℚ) ≤ V := by linarith
      have a5 : ¬ (1000000 : ℚ) ≤ V := by linarith
      have a6 : ¬ (1800000 : ℚ) ≤ V := by linarith
      have a7 : ¬ (3000000 : ℚ) ≤ V := by linarith
      norm_num [bracketTableTax, applicableBracket, VIC_LAND_TAX_BRACKETS, hV, a1, a2, a3, a4,
        a5, a6, a7]
    · have a1 : (50000 : ℚ) ≤ V := by linarith
      have a2 : (100000 : ℚ) ≤ V := by linarith
      have a3 : ¬ (300000 : ℚ) ≤ V := by linarith
      have a4 : ¬ (600000 : ℚ) ≤ V := by linarith
      have a5 : ¬ (1000000 : ℚ) ≤ V := by linarith
      have a6 : ¬ (1800000 : ℚ) ≤ V := by linarith
      have a7 : ¬ (3000000 : ℚ) ≤ V := by linarith
      norm_num [bracketTableTax, applicableBracket, VIC_LAND_TAX_BRACKETS, hV, a1, a2, a3, a4,
        a5, a6, a7]
    · have a1 : (50000 : ℚ) ≤ V := by linarith
      have a2 : (100000 : ℚ) ≤ V := by linarith
      have a3 : (300000 : ℚ) ≤ V := by linarith
      have a4 : ¬ (600000 : ℚ) ≤ V := by linarith
      have a5 : ¬ (1000000 : ℚ) ≤ V := by linarith
      have a6 : ¬ (1800000 : ℚ) ≤ V := by linarith
      have a7 : ¬ (3000000 : ℚ) ≤ V := by linarith
      norm_num [bracketTableTax, applicableBracket, VIC_LAND_TAX_BRACKETS, hV, a1, a2, a3, a4,
        a5, a6, a7]
    · have a1 : (50000 : ℚ) ≤ V := by linarith
      have a2 : (100000 : ℚ) ≤ V := by linarith
      have a3 : (300000 : ℚ) ≤ V := by linarith
      have a4 : (600000 : ℚ) ≤ V := by linarith
      have a5 : ¬ (1000000 : ℚ) ≤ V := by linarith
      have a6 : ¬ (1800000 : ℚ) ≤ V := by linarith
      have a7 : ¬ (3000000 : ℚ) ≤ V := by linarith
      norm_num [bracketTableTax, applicableBracket, VIC_LAND_TAX_BRACKETS, hV, a1, a2, a3, a4,
        a5, a6, a7]
    · have a1 : (50000 : ℚ) ≤ V := by linarith
      have a2 : (100000 : ℚ) ≤ V := by linarith
      have a3 : (300000 : ℚ) ≤ V := by linarith
      have a4 : (600000 : ℚ) ≤ V := by linarith
      have a5 : (1000000 : ℚ) ≤ V := by linarith
      have a6 : ¬ (1800000 : ℚ) ≤ V := by linarith
      have a7 : ¬ (3000000 : ℚ) ≤ V := by linarith
      norm_num [bracketTableTax, applicableBracket, VIC_LAND_TAX_BRACKETS, hV, a1, a2, a3, a4,
        a5, a6, a7]
    · have a1 : (50000 : ℚ) ≤ V := by linarith
      have a2 : (100000 : ℚ) ≤ V := by linarith
      have a3 : (300000 : ℚ) ≤ V := by linarith
      have a4 : (600000 : ℚ) ≤ V := by linarith
      have a5 : (1000000 : ℚ) ≤ V := by linarith
      have a6 : (1800000 : ℚ) ≤ V := by linarith
      have a7 : ¬ (3000000 : ℚ) ≤ V := by linarith
      norm_num [bracketTableTax, applicableBracket, VIC_LAND_TAX_BRACKETS, hV, a1, a2, a3, a4,
        a5, a6, a7]
    · have a1 : (50000 : ℚ) ≤ V := by linarith
      have a2 : (100000 : ℚ) ≤ V := by linarith
      have a3 : (300000 : ℚ) ≤ V := by linarith
      have a4 : (600000 : ℚ) ≤ V := by linarith
      have a5 : (1000000 : ℚ) ≤ V := by linarith
      have a6 : (1800000 : ℚ) ≤ V := by linarith
      have a7 : (3000000 : ℚ) ≤ V := by linarith
      norm_num [bracketTableTax, applicableBracket, VIC_LAND_TAX_BRACKETS, hV, a1, a2, a3, a4,
        a5, a6, a7]
  · norm_num [calculateVicLandTax]
  · norm_num [calculateVicLandTax]

/-- C5 at the land value 640000 of the default scenario. -/
theorem calculateVicLandTax_eq_bracket_table_witness :
    (0 : ℚ) ≤ 640000 ∧
    ((∃ b ∈ VIC_LAND_TAX_BRACKETS, b.threshold ≤ 640000 ∧
      (∀ c ∈ VIC_LAND_TAX_BRACKETS, c.threshold ≤ 640000 → c.threshold ≤ b.threshold) ∧
      calculateVicLandTax 640000 = b.fixedAmount + (640000 - b.threshold) * b.rate) ∧
    bracketTableTax VIC_LAND_TAX_BRACKETS 640000 = some (calculateVicLandTax 640000) ∧
    calculateVicLandTax 640000 = 2250 + (640000 - 600000) * (6 / 1000) ∧
    calculateVicLandTax 640000 = 2490) :=
  ⟨by norm_num, calculateVicLandTax_eq_bracket_table 640000 (by norm_num)⟩

theorem calculateVicLandTax_cases (x : ℚ) :
    (x < 50000 ∧ calculateVicLandTax x = 0) ∨
    (50000 ≤ x ∧ x < 100000 ∧ calculateVicLandTax x = 500) ∨
    (100000 ≤ x ∧ x < 300000 ∧ calculateVicLandTax x = 975) ∨
    (300000 ≤ x ∧ x < 600000 ∧
      calculateVicLandTax x = 1350 + (x - 300000) * (3 / 1000)) ∨
    (600000 ≤ x ∧ x < 1000000 ∧
      calculateVicLandTax x = 2250 + (x - 600000) * (6 / 1000)) ∨
    (1000000 ≤ x ∧ x < 1800000 ∧
      calculateVicLandTax x = 4650 + (x - 1000000) * (9 / 1000)) ∨
    (1800000 ≤ x ∧ x < 3000000 ∧
      calculateVicLandTax x = 11850 + (x - 1800000) * (165 / 10000)) ∨
    (3000000 ≤ x ∧ calculateVicLandTax x = 31650 + (x - 3000000) * (265 / 10000)) := by
  unfold calculateVicLandTax
  split_ifs with h1 h2 h3 h4 h5 h6 h7
  · exact Or.inl ⟨h1, rfl⟩
  · exact Or.inr (Or.inl ⟨not_lt.mp h1, h2, rfl⟩)
  · exact Or.inr (Or.inr (Or.inl ⟨not_lt.mp h2, h3, rfl⟩))
  · exact Or.inr (Or.inr (Or.inr (Or.inl ⟨not_lt.mp h3, h4, rfl⟩)))
  · exact Or.inr (Or.inr (Or.inr (Or.inr (Or.inl ⟨not_lt.mp h4, h5, rfl⟩))))
  · exact Or.inr (Or.inr (Or.inr (Or.inr (Or.inr (Or.inl ⟨not_lt.mp h5, h6, rfl⟩)))))
  · exact Or.inr (Or.inr (Or.inr (Or.inr (Or.inr (Or.inr (Or.inl ⟨not_lt.mp h6, h7, rfl⟩))))))
  · exact Or.inr (Or.inr (Or.inr (Or.inr (Or.inr (Or.inr (Or.inr ⟨not_lt.mp h7, rfl⟩))))))

/-- C6: `calculateVicLandTax` is monotonically non-decreasing in the land value. -/
theorem calculateVicLandTax_monotone (a b : ℚ) (hab : a ≤ b) :
    calculateVicLandTax a ≤ calculateVicLandTax b := by
  rcases calculateVicLandTax_cases a with ⟨a1, ea⟩ | ⟨a1, a2, ea⟩ | ⟨a1, a2, ea⟩ |
    ⟨a1, a2, ea⟩ | ⟨a1, a2, ea⟩ | ⟨a1, a2, ea⟩ | ⟨a1, a2, ea⟩ | ⟨a1, ea⟩ <;>
  rcases calculateVicLandTax_cases b with ⟨b1, eb⟩ | ⟨b1, b2, eb⟩ | ⟨b1, b2, eb⟩ |
    ⟨b1, b2, eb⟩ | ⟨b1, b2, eb⟩ | ⟨b1, b2, eb⟩ | ⟨b1, b2, eb⟩ | ⟨b1, eb⟩ <;>
  rw [ea, eb] <;> linarith

/-- C6 at the land values 640000 and 1200000. -/
theorem calculateVicLandTax_monotone_witness :
    (640000 : ℚ) ≤ 1200000 ∧ calculateVicLandTax 640000 ≤ calculateVicLandTax 1200000 :=
  ⟨by norm_num, calculateVicLandTax_monotone 640000 1200000 (by norm_num)⟩

theorem mathRound_natCast (n : ℕ) : mathRound (n : ℚ) = n := by
  unfold mathRound
  rw [Int.floor_eq_iff]
  constructor
  · push_cast
    linarith
  · push_cast
    linarith

theorem calculateStandardStampDuty_750000 : calculateStandardStampDuty 750000 = 40070 := by
  have h := mathRound_natCast 40070
  have e : (28070 + (750000 - 550000) * (6 / 100) : ℚ) = ((40070 : ℕ) : ℚ) := by norm_num
  unfold calculateStandardStampDuty
  norm_num
  rw [show (40070 : ℚ) = ((40070 : ℕ) : ℚ) by norm_num, h]
  norm_num

theorem calculateStandardStampDuty_700000 : calculateStandardStampDuty 700000 = 37070 := by
  have h := mathRound_natCast 37070
  unfold calculateStandardStampDuty
  norm_num
  rw [show (37070 : ℚ) = ((37070 : ℕ) : ℚ) by norm_num, h]
  norm_num

theorem calculateStandardStampDuty_nonneg (P : ℚ) (hP : 0 < P) :
    0 ≤ calculateStandardStampDuty P := by
  unfold calculateStandardStampDuty
  simp only
  have h : (0 : ℤ) ≤ mathRound
      (if P ≤ 25000 then P * (14 / 1000)
      else if P ≤ 130000 then 350 + (P - 25000) * (24 / 1000)
      else if P ≤ 440000 then 2870 + (P - 130000) * (6 / 100)
      else if P ≤ 550000 then 21470 + (P - 440000) * (6 / 100)
      else if P ≤ 960000 then 28070 + (P - 550000) * (6 / 100)
      else 52670 + (P - 960000) * (55 / 1000)) := by
    unfold mathRound
    apply Int.floor_nonneg.mpr
    split_ifs <;> linarith
  exact_mod_cast h

/-- C7: for every purchase price `P > 0`, with `D` the standard duty
`calculateVicStampDuty P false`, the first-time-buyer duty is `0` when `P ≤ 600000`, is
`max 0 (D - D * (750000 - P) / 150000)` when `600000 < P ≤ 750000`, and is `D` when
`P > 750000`; it is exactly `0` at 600000 and the full standard duty at 750000. -/
theorem firstTimeBuyer_duty_piecewise (P : ℚ) (hP : 0 < P) :
    (P ≤ 600000 → calculateVicStampDuty P true = 0) ∧
    (600000 < P → P ≤ 750000 →
      calculateVicStampDuty P true =
        max 0 (calculateVicStampDuty P false -
          calculateVicStampDuty P false * (750000 - P) / 150000)) ∧
    (750000 < P → calculateVicStampDuty P true = calculateVicStampDuty P false) ∧
    calculateVicStampDuty 600000 true = 0 ∧
    calculateVicStampDuty 750000 true = calculateVicStampDuty 750000 false := by
  have hP0 : ¬ P ≤ 0 := not_le.mpr hP
  refine ⟨?_, ?_, ?_, ?_, ?_⟩
  · intro h
    simp [calculateVicStampDuty, hP0, h]
  · intro h1 h2
    simp [calculateVicStampDuty, hP0, not_le.mpr h1, h2]
  · intro h
    have h1 : ¬ P ≤ 600000 := by linarith
    have h2 : ¬ P ≤ 750000 := by linarith
    simp [calculateVicStampDuty, hP0, h1, h2]
  · norm_num [calculateVicStampDuty]
  · norm_num [calculateVicStampDuty, calculateStandardStampDuty_750000]

/-- C7 at the purchase price 700000, inside the taper band. -/
theorem firstTimeBuyer_duty_piecewise_witness :
    (0 : ℚ) < 700000 ∧
    (((700000 : ℚ) ≤ 600000 → calculateVicStampDuty 700000 true = 0) ∧
    ((600000 : ℚ) < 700000 → (700000 : ℚ) ≤ 750000 →
      calculateVicStampDuty 700000 true =
        max 0 (calculateVicStampDuty 700000 false -
          calculateVicStampDuty 700000 false * (750000 - 700000) / 150000)) ∧
    ((750000 : ℚ) < 700000 →
      calculateVicStampDuty 700000 true = calculateVicStampDuty 700000 false) ∧
    calculateVicStampDuty 600000 true = 0 ∧
    calculateVicStampDuty 750000 true = calculateVicStampDuty 750000 false) :=
  ⟨by norm_num, firstTimeBuyer_duty_piecewise 700000 (by norm_num)⟩

/-- C8, evaluated: for a first-time buyer at price 700000 the code returns
`74140 / 3 = 24713.33…`, the rounded standard duty 37070 scaled by the taper and not
rounded again, which is not a whole number, while the standard path returns the whole
amount 37070. -/
theorem firstTimeBuyer_duty_700000_not_whole :
    calculateVicStampDuty 700000 true = 74140 / 3 ∧
    (∀ n : ℤ, calculateVicStampDuty 700000 true ≠ (n : ℚ)) ∧
    calculateVicStampDuty 700000 false = 37070 := by
  have e : calculateVicStampDuty 700000 true = 74140 / 3 := by
    norm_num [calculateVicStampDuty, calculateStandardStampDuty_700000]
  refine ⟨e, ?_, ?_⟩
  · intro n hn
    rw [e] at hn
    have h3 : (74140 : ℚ) = ((3 * n : ℤ) : ℚ) := by
      push_cast
      linarith
    have h4 : (74140 : ℤ) = 3 * n := by exact_mod_cast h3
    omega
  · norm_num [calculateVicStampDuty, calculateStandardStampDuty_700000]

theorem pointOfYear_zero_netAnnualCost (inputs : Inputs) :
    (pointOfYear inputs 0).netAnnualCost =
      monthlyMortgagePayment inputs * 12 + inputs.maintenanceCost +
        calculateVicLandTax (inputs.housePrice * LAND_VALUE_RATIO) + inputs.insuranceCost -
        inputs.rentIncomeWeekly * WEEKS_PER_YEAR := by
  simp [pointOfYear, recordedPoint, yearStep, loopState_zero, initialState, MONTHS_PER_YEAR]

/-- C11: for every `k` in `0..30`, point `k` has
`houseValue = housePrice * (1 + propertyIncrease / 100) ^ k`; the year-0 point holds the
unappreciated purchase price. -/
theorem houseValue_closed_form (inputs : Inputs) :
    (∀ k : Fin 31, ∃ p, (generateProjectionData inputs)[k.val]? = some p ∧
      p.houseValue = inputs.housePrice * (1 + inputs.propertyIncrease / 100) ^ k.val) ∧
    (∃ p, (generateProjectionData inputs)[0]? = some p ∧ p.houseValue = inputs.housePrice) := by
  constructor
  · intro k
    exact ⟨pointOfYear inputs k.val, generateProjectionData_getElem? inputs k.val k.isLt,
      pointOfYear_houseValue inputs k.val⟩
  · refine ⟨pointOfYear inputs 0, generateProjectionData_getElem? inputs 0 (by norm_num), ?_⟩
    rw [pointOfYear_houseValue, pow_zero, mul_one]

/-- Over records whose fields are finite numbers, in exact arithmetic, every point
returned by `generateProjectionData` has `houseEquity ≥ 0`. -/
theorem houseEquity_nonneg (inputs : Inputs) (p : YearPoint)
    (hp : p ∈ generateProjectionData inputs) : 0 ≤ p.houseEquity := by
  rw [generateProjectionData_eq_map, List.mem_map] at hp
  obtain ⟨k, _, rfl⟩ := hp
  rw [pointOfYear_houseEquity]
  exact le_max_left _ _

/-- The bound `houseEquity_nonneg` at the year-30 point of a record of finite numbers
with `downPayment > housePrice` and a negative interest rate. -/
theorem houseEquity_nonneg_witness :
    pointOfYear contractViolatingInputs 30 ∈ generateProjectionData contractViolatingInputs ∧
    0 ≤ (pointOfYear contractViolatingInputs 30).houseEquity :=
  ⟨by
      rw [generateProjectionData_eq_map]
      exact List.mem_map.mpr ⟨30, by simp, rfl⟩,
    houseEquity_nonneg contractViolatingInputs (pointOfYear contractViolatingInputs 30) (by
      rw [generateProjectionData_eq_map]
      exact List.mem_map.mpr ⟨30, by simp, rfl⟩)⟩

/-- C13, as stated: an input record with `downPayment > housePrice` and a negative
interest rate violates the contract, and `generateProjectionData` returns a projection of
31 points for it instead of signalling an error. -/
theorem no_validation_error_on_contract_violation :
    ¬ satisfiesContract contractViolatingInputs ∧
    contractViolatingInputs.downPayment > contractViolatingInputs.housePrice ∧
    contractViolatingInputs.interestRate < 0 ∧
    (∀ e, generateProjectionDataOutcome contractViolatingInputs ≠ Except.error e) ∧
    (∃ pts, generateProjectionDataOutcome contractViolatingInputs = Except.ok pts ∧
      pts.length = 31) := by
  refine ⟨?_, ?_, ?_, ?_, ?_⟩
  · intro h
    have h1 := h.1
    norm_num [contractViolatingInputs] at h1
  · norm_num [contractViolatingInputs]
  · norm_num [contractViolatingInputs]
  · intro e h
    simp [generateProjectionDataOutcome] at h
  · exact ⟨generateProjectionData contractViolatingInputs, rfl, by
      simp [generateProjectionData_eq_map]⟩

/-- C13, amended: `generateProjectionData` validates nothing: for every input record,
whether or not it satisfies the contract, it signals no error and returns a projection
of 31 points. -/
theorem generateProjectionData_never_signals_error (inputs : Inputs) :
    (∀ e, generateProjectionDataOutcome inputs ≠ Except.error e) ∧
    (∃ pts, generateProjectionDataOutcome inputs = Except.ok pts ∧ pts.length = 31 ∧
      pts = generateProjectionData inputs) := by
  constructor
  · intro e h
    simp [generateProjectionDataOutcome] at h
  · exact ⟨generateProjectionData inputs, rfl, by simp [generateProjectionData_eq_map], rfl⟩

/-- C15: the year-0 `netAnnualCost` and twelve times the standalone monthly figure add up
to `(12 * 4.33 - 52) * rentIncomeWeekly = -0.04 * rentIncomeWeekly`. -/
theorem year0_cost_plus_monthly_income (inputs : Inputs) :
    (∃ p, (generateProjectionData inputs)[0]? = some p ∧
      p.netAnnualCost +
        12 * calculateNetMonthlyIncome inputs.rentIncomeWeekly
          (calculateMortgagePayment (inputs.housePrice - inputs.downPayment)
            (inputs.interestRate / 100) 30)
          inputs.maintenanceCost (calculateVicLandTax (8 / 10 * inputs.housePrice))
          inputs.insuranceCost =
        (12 * (433 / 100) - 52) * inputs.rentIncomeWeekly) ∧
    (12 * (433 / 100) - 52) * inputs.rentIncomeWeekly = -(4 / 100) * inputs.rentIncomeWeekly := by
  constructor
  · refine ⟨pointOfYear inputs 0, generateProjectionData_getElem? inputs 0 (by norm_num), ?_⟩
    rw [pointOfYear_zero_netAnnualCost]
    have e : inputs.housePrice * LAND_VALUE_RATIO = 8 / 10 * inputs.housePrice := by
      unfold LAND_VALUE_RATIO
      ring
    rw [e]
    simp only [calculateNetMonthlyIncome, monthlyMortgagePayment, LOAN_TERM_YEARS,
      WEEKS_PER_YEAR, WEEKS_PER_MONTH, MONTHS_PER_YEAR]
    push_cast
    ring
  · ring

/-- C17: the first-time-buyer concession never increases the duty and never makes it
negative: `0 ≤ calculateVicStampDuty P true ≤ calculateVicStampDuty P false`. -/
theorem concession_duty_bounds (P : ℚ) :
    0 ≤ calculateVicStampDuty P true ∧
    calculateVicStampDuty P true ≤ calculateVicStampDuty P false := by
  rcases le_or_lt P 0 with h0 | h0
  · simp [calculateVicStampDuty, h0]
  · have hD := calculateStandardStampDuty_nonneg P h0
    have hn : ¬ P ≤ 0 := not_le.mpr h0
    rcases le_or_lt P 600000 with h6 | h6
    · simp [calculateVicStampDuty, hn, h6, hD]
    · rcases le_or_lt P 750000 with h7 | h7
      · have hc : 0 ≤ calculateStandardStampDuty P * (750000 - P) / 150000 :=
          div_nonneg (mul_nonneg hD (by linarith)) (by norm_num)
        have eT : calculateVicStampDuty P true =
            max 0 (calculateStandardStampDuty P -
              calculateStandardStampDuty P * (750000 - P) / 150000) := by
          simp [calculateVicStampDuty, hn, not_le.mpr h6, h7]
        have eF : calculateVicStampDuty P false = calculateStandardStampDuty P := by
          simp [calculateVicStampDuty, hn]
        rw [eT, eF]
        exact ⟨le_max_left _ _, max_le hD (by linarith)⟩
      · simp [calculateVicStampDuty, hn, not_le.mpr h6, not_le.mpr h7, hD]

theorem closedBalance_antitone (L r : ℚ) (N k j : ℕ) (hL : 0 ≤ L) (hr : 0 ≤ r)
    (hkj : k ≤ j) (hN : 0 < N) :
    closedBalance L r N j ≤ closedBalance L r N k := by
  unfold closedBalance
  split_ifs with h
  · have h1 : (k : ℚ) ≤ j := by exact_mod_cast hkj
    have h2 : (0 : ℚ) < N := by exact_mod_cast hN
    apply div_le_div_of_nonneg_right _ h2.le
    apply mul_le_mul_of_nonneg_left _ hL
    linarith
  · have hr' : 0 < r := lt_of_le_of_ne hr (Ne.symm h)
    have h1 : (1 : ℚ) < (1 + r) ^ N := one_lt_pow₀ (by linarith) (by omega)
    have h2 : (1 + r) ^ k ≤ (1 + r) ^ j := pow_le_pow_right₀ (by linarith) hkj
    apply div_le_div_of_nonneg_right _ (by linarith)
    apply mul_le_mul_of_nonneg_left _ hL
    linarith

theorem iterate_monthStep_zero (r : ℚ) (k : ℕ) : (monthStep 0 r)^[k] 0 = 0 := by
  induction k with
  | zero => rfl
  | succ k ih =>
    rw [Function.iterate_succ_apply', ih]
    simp [monthStep]

theorem loopState_loanBalance_antitone (inputs : Inputs)
    (hle : inputs.downPayment ≤ inputs.housePrice) (hr : 0 ≤ inputs.interestRate)
    (k : ℕ) (hk : k < 30) :
    (loopState inputs (k + 2)).loanBalance ≤ (loopState inputs (k + 1)).loanBalance := by
  rw [loopState_loanBalance inputs (k + 1), loopState_loanBalance inputs k]
  rcases lt_or_eq_of_le hle with hlt | heq
  · have hr' : 0 ≤ monthlyInterestRate inputs := by
      unfold monthlyInterestRate MONTHS_PER_YEAR
      positivity
    rw [loanBalance_closed inputs hlt hr (12 * (k + 1)) (by omega),
      loanBalance_closed inputs hlt hr (12 * k) (by omega)]
    exact closedBalance_antitone _ _ 360 (12 * k) (12 * (k + 1)) (by linarith) hr'
      (by omega) (by norm_num)
  · have hL : inputs.housePrice - inputs.downPayment = 0 := by linarith
    have hpay : monthlyMortgagePayment inputs = 0 := by
      simp [monthlyMortgagePayment, calculateMortgagePayment, hL]
    rw [hpay, hL, iterate_monthStep_zero, iterate_monthStep_zero]

theorem pointOfYear_zero_houseEquity (inputs : Inputs) :
    (pointOfYear inputs 0).houseEquity = max 0 inputs.downPayment := by
  simp [pointOfYear, recordedPoint, yearStep, loopState_zero, initialState]

/-- C14, as stated: the table is not self-consistent in the stated sense: the bracket at
threshold 50000 has `fixedAmount` 500, while the previous bracket's `fixedAmount` plus its
rate times the span is `0 + 0 * 50000 = 0`. -/
theorem VIC_LAND_TAX_BRACKETS_not_self_consistent :
    ¬ (thresholdsIncreasingFromZero VIC_LAND_TAX_BRACKETS ∧
      baseAmountsConsistent VIC_LAND_TAX_BRACKETS) := by
  rintro ⟨_, h⟩
  simp only [baseAmountsConsistent, VIC_LAND_TAX_BRACKETS, List.chain'_cons] at h
  have h1 := h.1
  norm_num at h1

/-- C14, amended: the thresholds of `VIC_LAND_TAX_BRACKETS` start at 0 and are strictly
increasing; every bracket after the first has a `fixedAmount` at least the previous
bracket's `fixedAmount` plus its rate times the span, and from the bracket at 300000 on
the next `fixedAmount` equals it. -/
theorem VIC_LAND_TAX_BRACKETS_consistency :
    thresholdsIncreasingFromZero VIC_LAND_TAX_BRACKETS ∧
    List.Chain'
      (fun prev b =>
        prev.fixedAmount + prev.rate * (b.threshold - prev.threshold) ≤ b.fixedAmount)
      VIC_LAND_TAX_BRACKETS ∧
    baseAmountsConsistent (VIC_LAND_TAX_BRACKETS.drop 3) := by
  refine ⟨⟨?_, ?_⟩, ?_, ?_⟩
  · simp [VIC_LAND_TAX_BRACKETS]
  · simp only [VIC_LAND_TAX_BRACKETS, List.chain'_cons, List.chain'_singleton]
    norm_num
  · simp only [VIC_LAND_TAX_BRACKETS, List.chain'_cons, List.chain'_singleton]
    norm_num
  · simp only [baseAmountsConsistent, VIC_LAND_TAX_BRACKETS, List.drop, List.chain'_cons,
      List.chain'_singleton]
    norm_num

/-- C16: for `0 ≤ downPayment ≤ housePrice`, `propertyIncrease ≥ 0` and
`interestRate ≥ 0`, the year-0 `houseEquity` is `downPayment`, the loan balance never
grows from one year to the next, and `houseEquity` of point `k + 1` is at least that of
point `k` for every `k` in `0..29`. -/
theorem houseEquity_nondecreasing (inputs : Inputs) (h0 : 0 ≤ inputs.downPayment)
    (hle : inputs.downPayment ≤ inputs.housePrice) (hp : 0 ≤ inputs.propertyIncrease)
    (hr : 0 ≤ inputs.interestRate) :
    (∃ p, (generateProjectionData inputs)[0]? = some p ∧
      p.houseEquity = inputs.downPayment) ∧
    (∀ k : Fin 30,
      (loopState inputs (k.val + 2)).loanBalance ≤ (loopState inputs (k.val + 1)).loanBalance) ∧
    (∀ k : Fin 30, ∃ p q, (generateProjectionData inputs)[k.val]? = some p ∧
      (generateProjectionData inputs)[k.val + 1]? = some q ∧
      p.houseEquity ≤ q.houseEquity) := by
  refine ⟨?_, ?_, ?_⟩
  · refine ⟨pointOfYear inputs 0, generateProjectionData_getElem? inputs 0 (by norm_num), ?_⟩
    rw [pointOfYear_zero_houseEquity]
    exact max_eq_right h0
  · intro k
    exact loopState_loanBalance_antitone inputs hle hr k.val k.isLt
  · intro k
    refine ⟨pointOfYear inputs k.val, pointOfYear inputs (k.val + 1),
      generateProjectionData_getElem? inputs k.val (by omega),
      generateProjectionData_getElem? inputs (k.val + 1) (by omega), ?_⟩
    rw [pointOfYear_houseEquity, pointOfYear_houseEquity]
    have hb := loopState_loanBalance_antitone inputs hle hr k.val k.isLt
    have hprice : 0 ≤ inputs.housePrice := le_trans h0 hle
    have hg : (1 : ℚ) ≤ 1 + inputs.propertyIncrease / 100 := by
      have : 0 ≤ inputs.propertyIncrease / 100 := by positivity
      linarith
    have hv : (loopState inputs (k.val + 1)).houseValue ≤
        (loopState inputs (k.val + 1 + 1)).houseValue := by
      rw [loopState_houseValue, loopState_houseValue]
      exact mul_le_mul_of_nonneg_left (pow_le_pow_right₀ hg (by omega)) hprice
    exact max_le_max le_rfl (by linarith)

/-- C16 at the default inputs. -/
theorem houseEquity_nondecreasing_witness :
    0 ≤ defaultInputs.downPayment ∧ defaultInputs.downPayment ≤ defaultInputs.housePrice ∧
    0 ≤ defaultInputs.propertyIncrease ∧ 0 ≤ defaultInputs.interestRate ∧
    ((∃ p, (generateProjectionData defaultInputs)[0]? = some p ∧
      p.houseEquity = defaultInputs.downPayment) ∧
    (∀ k : Fin 30,
      (loopState defaultInputs (k.val + 2)).loanBalance ≤
        (loopState defaultInputs (k.val + 1)).loanBalance) ∧
    (∀ k : Fin 30, ∃ p q, (generateProjectionData defaultInputs)[k.val]? = some p ∧
      (generateProjectionData defaultInputs)[k.val + 1]? = some q ∧
      p.houseEquity ≤ q.houseEquity)) :=
  ⟨by norm_num [defaultInputs], by norm_num [defaultInputs], by norm_num [defaultInputs],
    by norm_num [defaultInputs],
    houseEquity_nondecreasing defaultInputs (by norm_num [defaultInputs])
      (by norm_num [defaultInputs]) (by norm_num [defaultInputs])
      (by norm_num [defaultInputs])⟩

/-! ## Special values: `NaN` in the projection -/

theorem js_nan_mul (b : Js.JsNum) : Js.JsNum.nan * b = Js.JsNum.nan := by
  cases b <;> rfl

theorem js_nan_sub (b : Js.JsNum) : Js.JsNum.nan - b = Js.JsNum.nan := by
  cases b <;> rfl

theorem js_max_nan (a : Js.JsNum) : Js.max a Js.JsNum.nan = Js.JsNum.nan := by
  cases a <;> rfl

theorem js_max_zero_nan_or_nonneg (x : Js.JsNum) :
    Js.max (Js.JsNum.fin 0) x = Js.JsNum.nan ∨
      Js.le (Js.JsNum.fin 0) (Js.max (Js.JsNum.fin 0) x) = true := by
  cases x with
  | fin q =>
    right
    by_cases h : (0 : ℚ) < q
    · simp [Js.max, Js.lt, Js.le, h, h.le]
    · simp [Js.max, Js.lt, Js.le, h]
  | posInf => exact Or.inr rfl
  | negInf => exact Or.inr (by simp [Js.max, Js.lt, Js.le])
  | nan => exact Or.inl rfl

theorem js_loopState_succ (inputs : Js.Inputs) (n : ℕ) :
    Js.loopState inputs (n + 1) = Js.yearStep inputs (Js.loopState inputs n) n := by
  unfold Js.loopState
  rw [List.range_succ, List.foldl_append]
  rfl

theorem js_yearStep_yearlyData_length (inputs : Js.Inputs) (s : Js.LoopState) (year : ℕ) :
    (Js.yearStep inputs s year).yearlyData.length = s.yearlyData.length + 1 := by
  simp [Js.yearStep]

theorem js_loopState_yearlyData_length (inputs : Js.Inputs) (n : ℕ) :
    (Js.loopState inputs n).yearlyData.length = n := by
  induction n with
  | zero => rfl
  | succ n ih => rw [js_loopState_succ, js_yearStep_yearlyData_length, ih]

theorem js_yearStep_houseEquity (inputs : Js.Inputs) (s : Js.LoopState) (year : ℕ)
    (p : Js.YearPoint) (hp : p ∈ (Js.yearStep inputs s year).yearlyData) :
    p ∈ s.yearlyData ∨
      p.houseEquity = Js.max (Js.JsNum.fin 0)
        ((Js.yearStep inputs s year).houseValue - (Js.yearStep inputs s year).loanBalance) := by
  simp only [Js.yearStep, List.mem_append, List.mem_singleton] at hp ⊢
  rcases hp with h | h
  · exact Or.inl h
  · right
    rw [h]

theorem js_yearStep_houseValue_nan (inputs : Js.Inputs) (s : Js.LoopState) (year : ℕ)
    (h : s.houseValue = Js.JsNum.nan) :
    (Js.yearStep inputs s year).houseValue = Js.JsNum.nan := by
  simp only [Js.yearStep, h, js_nan_mul, ite_self]

theorem js_loopState_nan (inputs : Js.Inputs)
    (h : Js.parseFloat inputs.housePrice = Js.JsNum.nan) (n : ℕ) :
    (Js.loopState inputs n).houseValue = Js.JsNum.nan ∧
      ∀ p ∈ (Js.loopState inputs n).yearlyData, p.houseEquity = Js.JsNum.nan := by
  induction n with
  | zero =>
    refine ⟨h, ?_⟩
    intro p hp
    simp [Js.loopState, Js.initialState] at hp
  | succ n ih =>
    rw [js_loopState_succ]
    have hv := js_yearStep_houseValue_nan inputs (Js.loopState inputs n) n ih.1
    refine ⟨hv, ?_⟩
    intro p hp
    rcases js_yearStep_houseEquity inputs _ n p hp with h1 | h1
    · exact ih.2 p h1
    · rw [h1, hv, js_nan_sub, js_max_nan]

theorem js_houseEquity_nan_or_nonneg (inputs : Js.Inputs) (n : ℕ) :
    ∀ p ∈ (Js.loopState inputs n).yearlyData,
      p.houseEquity = Js.JsNum.nan ∨ Js.le (Js.JsNum.fin 0) p.houseEquity = true := by
  induction n with
  | zero =>
    intro p hp
    simp [Js.loopState, Js.initialState] at hp
  | succ n ih =>
    rw [js_loopState_succ]
    intro p hp
    rcases js_yearStep_houseEquity inputs _ n p hp with h1 | h1
    · exact ih p h1
    · rw [h1]
      exact js_max_zero_nan_or_nonneg _

/-- C12, evaluated: once the house price box is cleared, `housePrice` is the empty
string, `parseFloat` turns it into `NaN`, and `Math.max(0, NaN - loanBalance)` is `NaN`:
the 31 returned points all have `houseEquity = NaN`, for which `0 <= houseEquity` is
false. -/
theorem houseEquity_nan_for_cleared_housePrice :
    Js.parseFloat Js.clearedHousePriceInputs.housePrice = Js.JsNum.nan ∧
    (Js.generateProjectionData Js.clearedHousePriceInputs).length = 31 ∧
    (∀ i : Fin 31, ∃ p, (Js.generateProjectionData Js.clearedHousePriceInputs)[i.val]? = some p ∧
      p.houseEquity = Js.JsNum.nan ∧ Js.le (Js.JsNum.fin 0) p.houseEquity = false) := by
  have hlen : (Js.generateProjectionData Js.clearedHousePriceInputs).length = 31 :=
    js_loopState_yearlyData_length Js.clearedHousePriceInputs 31
  refine ⟨rfl, hlen, ?_⟩
  intro i
  have hi : i.val < (Js.generateProjectionData Js.clearedHousePriceInputs).length := by
    rw [hlen]
    exact i.isLt
  have hnan := (js_loopState_nan Js.clearedHousePriceInputs rfl 31).2
    ((Js.generateProjectionData Js.clearedHousePriceInputs)[i.val]) (List.getElem_mem hi)
  refine ⟨(Js.generateProjectionData Js.clearedHousePriceInputs)[i.val],
    List.getElem?_eq_getElem hi, hnan, ?_⟩
  rw [hnan]
  rfl

end FinanceAssistant
